import Mathlib

set_option maxHeartbeats 1000000
set_option maxRecDepth 100000

/-!
Shallow embedding of the RustByte NES emulator core (CPU, Bus, PPU, cartridge
loader, joypad, frame buffer), translated from the Rust sources, together with
theorems settling the specification claims about it.

Machine integers are modelled as `Nat` with explicit wrap-around (`% 256`,
`% 65536`) where the Rust code performs wrapping arithmetic; Rust panics
(array indexing out of bounds, explicit `panic!` arms) are modelled by
`Except String`.
-/

/-- A Rust byte store (`[u8; N]` array or `Vec<u8>`): a size together with a
total content function.  Out-of-range access models a Rust index panic. -/
structure ByteArr where
  size : Nat
  val : Nat → Nat

/-- Indexing (`a[i]`), failing outside the bounds like Rust. -/
def ByteArr.get (a : ByteArr) (i : Nat) : Except String Nat :=
  if i < a.size then .ok (a.val i) else .error "index out of bounds"

/-- Index assignment (`a[i] = v`), failing outside the bounds like Rust. -/
def ByteArr.set (a : ByteArr) (i v : Nat) : Except String ByteArr :=
  if i < a.size then .ok ⟨a.size, fun j => if j = i then v else a.val j⟩
  else .error "index out of bounds"

/-- Build a byte store from a list of bytes (a concrete `Vec<u8>`). -/
def ByteArr.ofList (l : List Nat) : ByteArr :=
  ⟨l.length, fun i => l.getD i 0⟩

/-- Decidable equality of `Except` results, for evaluating the embedded
operations on concrete inputs. -/
instance {ε α : Type} [DecidableEq ε] [DecidableEq α] :
    DecidableEq (Except ε α) := fun x y =>
  match x, y with
  | .ok a, .ok b =>
    if h : a = b then .isTrue (by rw [h])
    else .isFalse (fun he => h (Except.ok.inj he))
  | .error a, .error b =>
    if h : a = b then .isTrue (by rw [h])
    else .isFalse (fun he => h (Except.error.inj he))
  | .ok a, .error b => .isFalse (fun he => Except.noConfusion he)
  | .error a, .ok b => .isFalse (fun he => Except.noConfusion he)

/-- `ByteStatus::add` (src/src/byte_status.rs): `value |= bit`. -/
def bitsAdd (v bit : Nat) : Nat := v ||| bit

/-- `ByteStatus::remove` (src/src/byte_status.rs): `value &= !bit`, with the
`u8` complement written as XOR against `0xFF`. -/
def bitsRemove (v bit : Nat) : Nat := v &&& (255 ^^^ bit)

/-- `ByteStatus::is_set` (src/src/byte_status.rs): `value & bit != 0`. -/
def bitsIsSet (v bit : Nat) : Bool := v &&& bit != 0

-- CPU status flags (src/src/flags.rs, enum `Status`).
namespace Status

def Carry : Nat := 0x01

def Zero : Nat := 0x02

def InterruptDisable : Nat := 0x04

def Decimal : Nat := 0x08

def Break : Nat := 0x10

def Break2 : Nat := 0x20

def Overflow : Nat := 0x40

def Negative : Nat := 0x80

end Status

-- PPU status flags exactly as declared in src/src/flags.rs (enum
-- `PPUStatus`): `SpriteOverflow = 0b01000000`, `Sprite0Hit = 0b00010000`,
-- `Vblank = 0b10000000`.
namespace PPUStatus

def SpriteOverflow : Nat := 0b01000000

def Sprite0Hit : Nat := 0b00010000

def Vblank : Nat := 0b10000000

end PPUStatus

-- Joypad buttons (src/src/flags.rs, enum `Button`).
namespace Button

def RIGHT : Nat := 0b10000000

def LEFT : Nat := 0b01000000

def DOWN : Nat := 0b00100000

def UP : Nat := 0b00010000

def START : Nat := 0b00001000

def SELECT : Nat := 0b00000100

def B : Nat := 0b00000010

def A : Nat := 0b00000001

end Button

/-- Nametable mirroring modes (src/src/cpu/mirroring.rs). -/
inductive Mirroring where
  | Horizontal
  | Vertical
  | FourScreen
  deriving DecidableEq

/-- `AddressRegister` (src/src/ppu/address_register.rs): the PPUADDR register,
a big-endian byte pair plus the shared write latch `high_byte`. -/
structure AddressRegister where
  hi : Nat
  lo : Nat
  high_byte : Bool

/-- `AddressRegister::new`. -/
def AddressRegister.new : AddressRegister := ⟨0, 0, true⟩

/-- `AddressRegister::get`: `u16::from_be_bytes([hi, lo])`. -/
def AddressRegister.get (r : AddressRegister) : Nat := r.hi * 256 + r.lo

/-- `AddressRegister::set`: write one byte through the latch, mirror the
address down to `0x3FFF`, flip the latch. -/
def AddressRegister.set (r : AddressRegister) (v : Nat) : AddressRegister :=
  let r1 := if r.high_byte then { r with hi := v } else { r with lo := v }
  let r2 :=
    if r1.get > 0x3FFF then
      let m := r1.get &&& 0x3FFF
      { r1 with hi := m / 256 % 256, lo := m % 256 }
    else r1
  { r2 with high_byte := !r2.high_byte }

/-- `AddressRegister::add`: wrapping-add `v` to the low byte, carry into the
high byte, then mirror the address down to `0x3FFF`. -/
def AddressRegister.add (r : AddressRegister) (v : Nat) : AddressRegister :=
  let lo' := (r.lo + v) % 256
  let r1 :=
    if lo' < r.lo then { r with lo := lo', hi := (r.hi + 1) % 256 }
    else { r with lo := lo' }
  if r1.get > 0x3FFF then
    let m := r1.get &&& 0x3FFF
    { r1 with hi := m / 256 % 256, lo := m % 256 }
  else r1

/-- `AddressRegister::reset_high_byte`. -/
def AddressRegister.reset_high_byte (r : AddressRegister) : AddressRegister :=
  { r with high_byte := true }

/-- Modelled from the spec: `ScrollRegister` — src/src/ppu/scroll_register.rs
is declared in src/src/ppu/mod.rs but is missing from the sources.  Per the
spec, PPUSCROLL is written twice (first horizontal, then vertical), toggled by
a shared latch that a PPUSTATUS read resets. -/
structure ScrollRegister where
  x : Nat
  y : Nat
  latch : Bool

/-- Modelled from the spec: `ScrollRegister::new`. -/
def ScrollRegister.new : ScrollRegister := ⟨0, 0, false⟩

/-- Modelled from the spec: `ScrollRegister::write` — first write horizontal,
second vertical, toggling the latch. -/
def ScrollRegister.write (r : ScrollRegister) (v : Nat) : ScrollRegister :=
  if r.latch then { r with y := v, latch := !r.latch }
  else { r with x := v, latch := !r.latch }

/-- Modelled from the spec: `ScrollRegister::reset_latch`. -/
def ScrollRegister.reset_latch (r : ScrollRegister) : ScrollRegister :=
  { r with latch := false }

/-- `ControllerRegister::vram_increment` (src/src/ppu/controller_register.rs):
32 if the `VRAM` bit (`0b100`) is set, else 1. -/
def ctrlVramIncrement (v : Nat) : Nat :=
  if bitsIsSet v 0b00000100 then 32 else 1

/-- `ControllerRegister::vblank` (src/src/ppu/controller_register.rs): the
NMI-enable bit `0b10000000`. -/
def ctrlVblank (v : Nat) : Bool := bitsIsSet v 0b10000000

/-- The PPU (src/src/ppu/ppu.rs).  Register values are the raw bytes of the
corresponding register structs. -/
structure PPU where
  ram : ByteArr
  palette : ByteArr
  chr : ByteArr
  oam : ByteArr
  oam_address : Nat
  mirroring : Mirroring
  controller_register : Nat
  mask_register : Nat
  status_register : Nat
  scroll_register : ScrollRegister
  address_register : AddressRegister
  internal_buffer : Nat
  cycles : Nat
  scanline : Nat
  nmi : Bool

/-- `PPU::new`. -/
def PPU.new (chr : ByteArr) (m : Mirroring) : PPU :=
  { ram := ⟨2048, fun _ => 0⟩
    palette := ⟨32, fun _ => 0⟩
    chr := chr
    oam := ⟨256, fun _ => 0⟩
    oam_address := 0
    mirroring := m
    controller_register := 0b00100000
    mask_register := 0
    status_register := 0
    scroll_register := ScrollRegister.new
    address_register := AddressRegister.new
    internal_buffer := 0
    cycles := 0
    scanline := 0
    nmi := false }

/-- `PPU::tick` (src/src/ppu/ppu.rs lines 95-127): advance the dot counter;
on crossing 341 dots start the next scanline; entering scanline 241 sets
VBlank and Sprite0Hit and raises NMI if enabled; reaching scanline 262 wraps
to 0, clears VBlank, Sprite0Hit and NMI and reports a finished frame. -/
def PPU.tick (p : PPU) (cycles : Nat) : PPU × Bool :=
  let c := p.cycles + cycles
  if c ≥ 341 then
    let c' := c - 341
    let sl := p.scanline + 1
    let p1 : PPU :=
      if sl = 241 then
        { p with cycles := c', scanline := sl,
                 status_register :=
                   bitsAdd (bitsAdd p.status_register PPUStatus.Vblank)
                     PPUStatus.Sprite0Hit,
                 nmi := if ctrlVblank p.controller_register then true else p.nmi }
      else { p with cycles := c', scanline := sl }
    if sl ≥ 262 then
      ({ p1 with scanline := 0,
                 status_register :=
                   bitsRemove (bitsRemove p1.status_register PPUStatus.Vblank)
                     PPUStatus.Sprite0Hit,
                 nmi := false }, true)
    else (p1, false)
  else ({ p with cycles := c }, false)

/-- The nametable-mirroring computation of `PPU::mirror`
(src/src/ppu/ppu.rs lines 131-161), as a function of the mirroring mode.
(`PPU::mirror` is only called with `addr` in `0x2000..=0x2FFF`; the `u16`
subtraction below is total on that range.) -/
def nametableMirror (m : Mirroring) (addr : Nat) : Nat :=
  let mirrored := addr &&& 0x2FFF
  let idx := mirrored - 0x2000
  let nt := idx / 0x400
  match m, nt with
  | Mirroring.Vertical, 2 => idx - 0x800
  | Mirroring.Vertical, 3 => idx - 0x800
  | Mirroring.Horizontal, 2 => idx - 0x400
  | Mirroring.Horizontal, 1 => idx - 0x400
  | Mirroring.Horizontal, 3 => idx - 0x800
  | _, _ => idx

/-- `PPU::mirror`. -/
def PPU.mirror (p : PPU) (addr : Nat) : Nat := nametableMirror p.mirroring addr

/-- `PPU::read` (src/src/ppu/ppu.rs lines 167-204), the PPUDATA read: take the
current address, auto-increment the address register by the CTRL-selected
stride, then dispatch on the address exactly as the source `match` does
(CHR and VRAM reads are buffered, `0x3000-0x3EFF` panics, the four palette
mirrors and the palette are returned directly). -/
def PPU.read (p : PPU) : Except String (Nat × PPU) :=
  let addr := p.address_register.get
  let q : PPU :=
    { p with address_register :=
        p.address_register.add (ctrlVramIncrement p.controller_register) }
  if addr ≤ 0x1FFF then
    (q.chr.get addr).map fun b =>
      (q.internal_buffer, { q with internal_buffer := b })
  else if addr ≤ 0x2FFF then
    (q.ram.get (q.mirror addr)).map fun b =>
      (q.internal_buffer, { q with internal_buffer := b })
  else if addr ≤ 0x3EFF then
    .error "Reading from 0x3000 - 0x3EFF is not expected"
  else if addr = 0x3F10 ∨ addr = 0x3F14 ∨ addr = 0x3F18 ∨ addr = 0x3F1C then
    (q.palette.get (addr - 0x3F00 - 0x10)).map fun b => (b, q)
  else if addr ≤ 0x3FFF then
    (q.palette.get (addr - 0x3F00)).map fun b => (b, q)
  else
    .error "Reading from an unexpected address"

/-- `PPU::write` (src/src/ppu/ppu.rs lines 207-239), the PPUDATA write:
dispatch on the current address (CHR writes panic, VRAM through mirroring,
palette with the `0x3F10/14/18/1C` aliasing), then auto-increment the address
register by the CTRL-selected stride. -/
def PPU.write (p : PPU) (v : Nat) : Except String PPU :=
  let addr := p.address_register.get
  let upd : PPU → PPU := fun q =>
    { q with address_register :=
        q.address_register.add (ctrlVramIncrement q.controller_register) }
  if addr ≤ 0x1FFF then
    .error "Writing to 0x0000 - 0x1FFF (CHR) is not expected"
  else if addr ≤ 0x2FFF then
    (p.ram.set (p.mirror addr) v).map fun r => upd { p with ram := r }
  else if addr ≤ 0x3EFF then
    .error "Writing to 0x3000 - 0x3EFF is not expected"
  else if addr = 0x3F10 ∨ addr = 0x3F14 ∨ addr = 0x3F18 ∨ addr = 0x3F1C then
    (p.palette.set (addr - 0x3F00 - 0x10) v).map fun pa =>
      upd { p with palette := pa }
  else if addr ≤ 0x3FFF then
    (p.palette.set (addr - 0x3F00) v).map fun pa => upd { p with palette := pa }
  else
    .error "Writing to an unexpected address"

/-- `PPU::read_status_register` (src/src/ppu/ppu.rs lines 241-254): return the
status byte, clear VBlank, reset the address latch and the scroll latch. -/
def PPU.read_status_register (p : PPU) : Nat × PPU :=
  (p.status_register,
   { p with
       status_register := bitsRemove p.status_register PPUStatus.Vblank,
       address_register := p.address_register.reset_high_byte,
       scroll_register := p.scroll_register.reset_latch })

/-- `PPU::write_oam_dma` (src/src/ppu/ppu.rs lines 257-262). -/
def PPU.write_oam_dma (p : PPU) (data : List Nat) : Except String PPU :=
  data.foldlM
    (fun q x =>
      (q.oam.set q.oam_address x).map fun o =>
        { q with oam := o, oam_address := (q.oam_address + 1) % 256 })
    p

/-- `PPU::read_oam_data`. -/
def PPU.read_oam_data (p : PPU) : Except String Nat := p.oam.get p.oam_address

/-- `PPU::write_oam_data`. -/
def PPU.write_oam_data (p : PPU) (v : Nat) : Except String PPU :=
  (p.oam.set p.oam_address v).map fun o =>
    { p with oam := o, oam_address := (p.oam_address + 1) % 256 }

/-- `PPU::write_oam_address`. -/
def PPU.write_oam_address (p : PPU) (v : Nat) : PPU := { p with oam_address := v }

/-- `PPU::write_control_register` (src/src/ppu/ppu.rs lines 277-284): set the
control byte and raise NMI when NMI-enable goes 0→1 while VBlank is set. -/
def PPU.write_control_register (p : PPU) (v : Nat) : PPU :=
  let before := ctrlVblank p.controller_register
  let p1 := { p with controller_register := v }
  if !before && ctrlVblank v && bitsIsSet p1.status_register PPUStatus.Vblank then
    { p1 with nmi := true }
  else p1

/-- `PPU::write_mask_register`. -/
def PPU.write_mask_register (p : PPU) (v : Nat) : PPU :=
  { p with mask_register := v }

/-- `PPU::write_scroll_register`. -/
def PPU.write_scroll_register (p : PPU) (v : Nat) : PPU :=
  { p with scroll_register := p.scroll_register.write v }

/-- `PPU::write_address_register`. -/
def PPU.write_address_register (p : PPU) (v : Nat) : PPU :=
  { p with address_register := p.address_register.set v }

/-- The joypad (src/src/render/input/joypad.rs): strobe flag, read index and
the button-status byte. -/
structure Joypad where
  strobe : Bool
  index : Nat
  status : Nat

/-- `Joypad::new`. -/
def Joypad.new : Joypad := ⟨false, 0, 0⟩

/-- `Joypad::write` (src/src/render/input/joypad.rs lines 26-32): latch the
strobe from bit 0 and pin the index to 0 while the strobe is high. -/
def Joypad.write (j : Joypad) (v : Nat) : Joypad :=
  let s := v &&& 1 == 1
  { j with strobe := s, index := if s then 0 else j.index }

/-- `Joypad::read` (src/src/render/input/joypad.rs lines 34-45): past the
eighth button always return 1; otherwise extract bit `index` of the status
byte and advance the index when the strobe is low. -/
def Joypad.read (j : Joypad) : Nat × Joypad :=
  if j.index > 7 then (1, j)
  else
    let res := (j.status &&& (1 <<< j.index)) >>> j.index
    if j.strobe = false ∧ j.index ≤ 7 then (res, { j with index := j.index + 1 })
    else (res, j)

/-- `Joypad::add`: press a button (set its bit). -/
def Joypad.add (j : Joypad) (b : Nat) : Joypad :=
  { j with status := bitsAdd j.status b }

/-- `Joypad::remove`: release a button (clear its bit). -/
def Joypad.remove (j : Joypad) (b : Nat) : Joypad :=
  { j with status := bitsRemove j.status b }

/-- The frame buffer (src/src/render/frame.rs): a flat RGB byte vector of
`256 * 240 * 3` bytes. -/
structure Frame where
  data : List Nat

/-- `Frame::WIDTH`. -/
def Frame.WIDTH : Nat := 256

/-- `Frame::HEIGHT`. -/
def Frame.HEIGHT : Nat := 240

/-- `Frame::new`. -/
def Frame.new : Frame := ⟨List.replicate (Frame.WIDTH * Frame.HEIGHT * 3) 0⟩

/-- `Frame::set_pixel` (src/src/render/frame.rs lines 23-31): store the three
colour bytes at `(y * WIDTH + x) * 3` when `index + 2` is inside the buffer,
otherwise leave the frame unchanged. -/
def Frame.set_pixel (fr : Frame) (x y : Nat) (color : Nat × Nat × Nat) : Frame :=
  let index := (y * Frame.WIDTH + x) * 3
  if index + 2 < fr.data.length then
    ⟨((fr.data.set index color.1).set (index + 1) color.2.1).set
      (index + 2) color.2.2⟩
  else fr

/-- Outcomes of `Cartridge::new` (src/src/cpu/cartridge.rs): the two explicit
`Err` returns, and `crash` for the Rust panics of out-of-range indexing or
slicing of the input vector. -/
inductive LoadError where
  | crash
  | invalidFile
  | unsupportedVersion
  deriving DecidableEq

/-- A parsed cartridge (src/src/cpu/cartridge.rs). -/
structure Cartridge where
  prg_rom : List Nat
  chr_rom : List Nat
  mapper : Nat
  mirroring : Mirroring
  deriving DecidableEq

/-- `Cartridge::new` (src/src/cpu/cartridge.rs lines 16-58): check the iNES
magic, compute the mapper id, reject when `data[7] & 3 != 0`, derive the
mirroring from `data[6] & 4` (four-screen) and `data[6] & 1` (vertical), read
the ROM sizes, skip the trainer when `data[6] & 4` is set, and slice out the
PRG and CHR ROMs. -/
def Cartridge.new (data : List Nat) : Except LoadError Cartridge :=
  if data.length < 4 then .error .crash
  else if ¬ data.take 4 = [0x4E, 0x45, 0x53, 0x1A] then .error .invalidFile
  else if data.length < 8 then .error .crash
  else
    let mapper_id := (data.getD 7 0 &&& 0xF0) ||| ((data.getD 6 0 &&& 0xF0) >>> 4)
    let ines_version := data.getD 7 0 &&& 3
    if ines_version ≠ 0 then .error .unsupportedVersion
    else
      let four := data.getD 6 0 &&& 4 != 0
      let vert := data.getD 6 0 &&& 1 != 0
      let mirr : Mirroring :=
        match four, vert with
        | false, false => Mirroring.Horizontal
        | false, true => Mirroring.Vertical
        | true, _ => Mirroring.FourScreen
      let prg_rom_size := data.getD 4 0 * 0x4000
      let chr_rom_size := data.getD 5 0 * 0x2000
      let has_trainer := data.getD 6 0 &&& 4 != 0
      let prg_rom_start := 16 + if has_trainer then 512 else 0
      let chr_rom_start := prg_rom_start + prg_rom_size
      if ¬ prg_rom_start + prg_rom_size ≤ data.length then .error .crash
      else if ¬ chr_rom_start + chr_rom_size ≤ data.length then .error .crash
      else
        .ok { prg_rom := (data.drop prg_rom_start).take prg_rom_size
              chr_rom := (data.drop chr_rom_start).take chr_rom_size
              mapper := mapper_id
              mirroring := mirr }

/-- The CPU bus (src/src/cpu/bus.rs): 2 KiB of RAM, the PRG ROM, the PPU and
the cycle counter.  The `game` callback only borrows the PPU immutably, so it
cannot change the bus state and is not part of the model. -/
structure Bus where
  ram : ByteArr
  prg : ByteArr
  ppu : PPU
  cycles : Nat

/-- `Bus::new` (src/src/cpu/bus.rs lines 37-50). -/
def Bus.new (cartridge : Cartridge) : Bus :=
  { ram := ⟨2048, fun _ => 0⟩
    prg := ByteArr.ofList cartridge.prg_rom
    ppu := PPU.new (ByteArr.ofList cartridge.chr_rom) cartridge.mirroring
    cycles := 0 }

/-- `Bus::tick` (src/src/cpu/bus.rs lines 65-80): add to the cycle counter and
tick the PPU three times as fast (`cycles * 3` is a `u8` multiplication, hence
the wrap modulo 256).  The NMI-edge callback only reads the PPU. -/
def Bus.tick (b : Bus) (cycles : Nat) : Bus :=
  { b with cycles := b.cycles + cycles, ppu := (b.ppu.tick (cycles * 3 % 256)).1 }

/-- `Bus::nmi_status` (src/src/cpu/bus.rs lines 83-85): return the PPU's NMI
flag, unmodified. -/
def Bus.nmi_status (b : Bus) : Bool := b.ppu.nmi

/-- `Bus::read_from_rom` (src/src/cpu/bus.rs lines 237-249): wrapping-subtract
the `0x8000` base and mirror 16 KiB ROMs into the upper bank. -/
def Bus.read_from_rom (b : Bus) (addr : Nat) : Except String Nat :=
  let adjusted := (addr + 0x8000) % 0x10000
  let adjusted :=
    if b.prg.size = 0x4000 ∧ adjusted ≥ 0x4000 then adjusted % 0x4000
    else adjusted
  b.prg.get adjusted

/-- The non-mirrored arms of the `Bus::read` dispatch
(src/src/cpu/bus.rs lines 89-139).  The `0x2008..=0x3FFF` mirror arm is in
`Bus.read`, which folds the address and calls this once — the source recurses
instead, but the recursion depth is exactly one because the folded address is
below `0x2008`. -/
def Bus.readPrim (b : Bus) (addr : Nat) : Except String (Nat × Bus) :=
  if addr ≤ 0x1FFF then
    (b.ram.get (addr &&& 0x07FF)).map fun v => (v, b)
  else if addr = 0x2000 ∨ addr = 0x2001 ∨ addr = 0x2003 ∨ addr = 0x2005 ∨
      addr = 0x2006 ∨ addr = 0x4014 then
    .ok (0, b)
  else if addr = 0x2002 then
    .ok ((b.ppu.read_status_register).1,
      { b with ppu := (b.ppu.read_status_register).2 })
  else if addr = 0x2004 then
    (b.ppu.read_oam_data).map fun v => (v, b)
  else if addr = 0x2007 then
    (b.ppu.read).map fun vp => (vp.1, { b with ppu := vp.2 })
  else if 0x4000 ≤ addr ∧ addr ≤ 0x4015 then .ok (0, b)
  else if addr = 0x4016 then .ok (0, b)
  else if addr = 0x4017 then .ok (0, b)
  else if 0x8000 ≤ addr ∧ addr ≤ 0xFFFF then
    (b.read_from_rom addr).map fun v => (v, b)
  else .ok (0, b)

/-- `Bus::read` (src/src/cpu/bus.rs lines 89-139): fold the PPU-register
mirrors `0x2008..=0x3FFF` down with `addr & 0x2007`, then dispatch. -/
def Bus.read (b : Bus) (addr : Nat) : Except String (Nat × Bus) :=
  if 0x2008 ≤ addr ∧ addr ≤ 0x3FFF then b.readPrim (addr &&& 0x2007)
  else b.readPrim addr

/-- `Bus::read_u16` (src/src/cpu/bus.rs lines 143-150): little-endian 16-bit
read (the `addr + 1` is a `u16` addition, hence the wrap modulo 65536). -/
def Bus.read_u16 (b : Bus) (addr : Nat) : Except String (Nat × Bus) :=
  match b.read addr with
  | .error e => .error e
  | .ok lo =>
    match lo.2.read ((addr + 1) % 0x10000) with
    | .error e => .error e
    | .ok hi => .ok ((hi.1 <<< 8) ||| lo.1, hi.2)

/-- The non-mirrored arms of the `Bus::write` dispatch
(src/src/cpu/bus.rs lines 154-226), including the `0x4014` OAM DMA, which
reads 256 bytes through the bus from `val << 8` and hands them to the PPU. -/
def Bus.writePrim (b : Bus) (addr v : Nat) : Except String Bus :=
  if addr ≤ 0x1FFF then
    (b.ram.set (addr &&& 0x07FF) v).map fun r => { b with ram := r }
  else if addr = 0x2000 then .ok { b with ppu := b.ppu.write_control_register v }
  else if addr = 0x2001 then .ok { b with ppu := b.ppu.write_mask_register v }
  else if addr = 0x2003 then .ok { b with ppu := b.ppu.write_oam_address v }
  else if addr = 0x2004 then
    (b.ppu.write_oam_data v).map fun p => { b with ppu := p }
  else if addr = 0x2005 then .ok { b with ppu := b.ppu.write_scroll_register v }
  else if addr = 0x2006 then .ok { b with ppu := b.ppu.write_address_register v }
  else if addr = 0x2007 then
    (b.ppu.write v).map fun p => { b with ppu := p }
  else if (0x4000 ≤ addr ∧ addr ≤ 0x4013) ∨ addr = 0x4015 then .ok b
  else if addr = 0x4016 then .ok b
  else if addr = 0x4017 then .ok b
  else if addr = 0x4014 then do
    let hi := (v % 256) <<< 8
    let acc ← (List.range 256).foldlM
      (fun (acc : List Nat × Bus) i =>
        (acc.2.read (hi + i)).map fun vb => (acc.1 ++ [vb.1], vb.2))
      (([] : List Nat), b)
    let p ← acc.2.ppu.write_oam_dma acc.1
    .ok { acc.2 with ppu := p }
  else if 0x8000 ≤ addr ∧ addr ≤ 0xFFFF then
    .error "Write to ROM is not supported"
  else .ok b

/-- `Bus::write` (src/src/cpu/bus.rs lines 154-226): fold the PPU-register
mirrors `0x2008..=0x3FFF` down with `addr & 0x2007`, then dispatch. -/
def Bus.write (b : Bus) (addr v : Nat) : Except String Bus :=
  if 0x2008 ≤ addr ∧ addr ≤ 0x3FFF then b.writePrim (addr &&& 0x2007) v
  else b.writePrim addr v

/-- A CPU register (src/src/cpu/register.rs, `Register`): a `u8` cell. -/
structure Register where
  value : Nat

/-- `Register::new`. -/
def Register.new : Register := ⟨0⟩

/-- `Register::set`. -/
def Register.set (r : Register) (v : Nat) : Register := ⟨v⟩

/-- `Register::add`: `wrapping_add`. -/
def Register.add (r : Register) (v : Nat) : Register := ⟨(r.value + v) % 256⟩

/-- `Register::subtract`: `wrapping_sub` (the argument is a `u8`). -/
def Register.subtract (r : Register) (v : Nat) : Register :=
  ⟨(r.value + 256 - v % 256) % 256⟩

/-- `Register::reset`: back to 0. -/
def Register.reset (r : Register) : Register := ⟨0⟩

/-- `CPUStatus` (src/src/cpu/cpu_status.rs): the status byte P. -/
structure CPUStatus where
  value : Nat

/-- `CPUStatus::new`: `0b0010_0000`. -/
def CPUStatus.new : CPUStatus := ⟨0b00100000⟩

/-- `CPUStatus::add`: set the given flag bits. -/
def CPUStatus.add (s : CPUStatus) (bit : Nat) : CPUStatus :=
  ⟨bitsAdd s.value bit⟩

/-- `CPUStatus::remove`: clear the given flag bits. -/
def CPUStatus.remove (s : CPUStatus) (bit : Nat) : CPUStatus :=
  ⟨bitsRemove s.value bit⟩

/-- `CPUStatus::is_set`. -/
def CPUStatus.is_set (s : CPUStatus) (bit : Nat) : Bool := bitsIsSet s.value bit

/-- `CPUStatus::reset` (src/src/cpu/cpu_status.rs lines 49-52): "resets the
status to 0" — `self.value = 0`. -/
def CPUStatus.reset (s : CPUStatus) : CPUStatus := ⟨0⟩

/-- `CPUStatus::set_bits`. -/
def CPUStatus.set_bits (s : CPUStatus) (bits : Nat) : CPUStatus := ⟨bits⟩

/-- Modelled from the spec: `CPUStatus::set(bit, flag)` — called by
`CPU::interrupt` (src/src/cpu/cpu.rs lines 96-97) but not defined in
src/src/cpu/cpu_status.rs; the evident semantics of the call sites is the
conditional flag update: set the bit when the flag is true, clear it when it
is false. -/
def CPUStatus.set (s : CPUStatus) (bit : Nat) (flag : Bool) : CPUStatus :=
  if flag then s.add bit else s.remove bit

/-- `InterruptType` (src/src/cpu/interrupt.rs). -/
inductive InterruptType where
  | NMI

/-- `Interrupt` (src/src/cpu/interrupt.rs). -/
structure Interrupt where
  interrupt_type : InterruptType
  cycles : Nat
  address : Nat
  flag_mask : Nat

/-- The `NMI` interrupt constant (src/src/cpu/interrupt.rs lines 13-18). -/
def NMI : Interrupt :=
  { interrupt_type := InterruptType.NMI
    cycles := 2
    address := 0xFFFA
    flag_mask := 0x20 }

/-- The CPU (src/src/cpu/cpu.rs): registers A/X/Y, the status byte P, the
program counter, the bus and the stack pointer. -/
structure CPU where
  a : Register
  x : Register
  y : Register
  status : CPUStatus
  prog_counter : Nat
  bus : Bus
  stack_pointer : Nat

/-- `CPU::new` over a bus. -/
def CPU.new (bus : Bus) : CPU :=
  { a := Register.new
    x := Register.new
    y := Register.new
    status := CPUStatus.new
    prog_counter := 0
    bus := bus
    stack_pointer := 0xFD }

/-- `CPU::stack_push` (src/src/cpu/cpu.rs lines 825-828): write at
`0x100 + SP`, then `wrapping_sub` 1 from SP. -/
def CPU.stack_push (c : CPU) (v : Nat) : Except String CPU :=
  (c.bus.write (0x100 + c.stack_pointer) v).map fun b =>
    { c with bus := b, stack_pointer := (c.stack_pointer + 255) % 256 }

/-- `CPU::stack_pop` (src/src/cpu/cpu.rs lines 830-833). -/
def CPU.stack_pop (c : CPU) : Except String (Nat × CPU) :=
  let sp := (c.stack_pointer + 1) % 256
  match c.bus.read (0x100 + sp) with
  | .error e => .error e
  | .ok vb => .ok (vb.1, { c with bus := vb.2, stack_pointer := sp })

/-- `CPU::stack_push_u16` (src/src/cpu/cpu.rs lines 835-838): high byte first,
then low byte. -/
def CPU.stack_push_u16 (c : CPU) (v : Nat) : Except String CPU :=
  match c.stack_push ((v >>> 8) % 256) with
  | .error e => .error e
  | .ok c1 => c1.stack_push (v % 256)

/-- `CPU::reset` (src/src/cpu/cpu.rs lines 72-86): reset A, X, Y and the
status, set SP to `0xFD`, and load PC from the reset vector at `0xFFFC`. -/
def CPU.reset (c : CPU) : Except String CPU :=
  match c.bus.read_u16 0xFFFC with
  | .error e => .error e
  | .ok vb =>
    .ok { c with
            a := c.a.reset
            x := c.x.reset
            y := c.y.reset
            status := c.status.reset
            stack_pointer := 0xFD
            prog_counter := vb.1
            bus := vb.2 }

/-- `CPU::interrupt` (src/src/cpu/cpu.rs lines 89-106): push PC (high byte
then low byte), push a copy of P whose Break flag is set to
`flag_mask & 0b010000 == 1` and whose Break2 flag is set to
`flag_mask & 0b100000 == 1` (both comparisons against 1, exactly as in the
source), set Interrupt-disable, tick the bus, and load PC from the interrupt
vector. -/
def CPU.interrupt (c : CPU) (i : Interrupt) : Except String CPU :=
  match c.stack_push_u16 c.prog_counter with
  | .error e => .error e
  | .ok c1 =>
    let st :=
      (c1.status.set Status.Break (i.flag_mask &&& 0b010000 == 1)).set
        Status.Break2 (i.flag_mask &&& 0b100000 == 1)
    match c1.stack_push st.value with
    | .error e => .error e
    | .ok c2 =>
      let c3 := { c2 with status := c2.status.add Status.InterruptDisable }
      let c4 := { c3 with bus := c3.bus.tick i.cycles }
      match c4.bus.read_u16 i.address with
      | .error e => .error e
      | .ok vb => .ok { c4 with prog_counter := vb.1, bus := vb.2 }

/-- The NMI check at the head of each `CPU::interpret_callback` loop iteration
(src/src/cpu/cpu.rs lines 725-728): service an NMI interrupt exactly when the
bus reports the NMI flag, before the next instruction is fetched. -/
def CPU.interpretNmiCheck (c : CPU) : Except String CPU :=
  if c.bus.nmi_status then c.interrupt NMI else .ok c

/-- An 8 KiB all-zero CHR ROM. -/
def chr8k : ByteArr := ⟨8192, fun _ => 0⟩

/-- A freshly constructed PPU over the zero CHR ROM, horizontal mirroring. -/
def ppu0 : PPU := PPU.new chr8k Mirroring.Horizontal

/-- The PPU one dot before the tick that crosses into scanline 241. -/
def ppu240 : PPU := { ppu0 with scanline := 240, cycles := 340 }

/-- A 16 KiB all-zero PRG ROM. -/
def prg16k : ByteArr := ⟨0x4000, fun _ => 0⟩

/-- A bus over the zero ROMs. -/
def bus0 : Bus := { ram := ⟨2048, fun _ => 0⟩, prg := prg16k, ppu := ppu0, cycles := 0 }

/-- A CPU immediately before `reset`, with scratch register contents. -/
def cpu0 : CPU :=
  { a := ⟨1⟩, x := ⟨2⟩, y := ⟨3⟩, status := ⟨0xFF⟩, prog_counter := 0x1234,
    bus := bus0, stack_pointer := 0x33 }

/-- The CPU state produced by resetting `cpu0`. -/
def cpu0r : CPU :=
  match CPU.reset cpu0 with
  | .ok c => c
  | .error _ => cpu0

/-- A CPU about to service an NMI: P = `0b0010_0100`, PC = `0x8000`. -/
def cpu1 : CPU :=
  { a := ⟨0⟩, x := ⟨0⟩, y := ⟨0⟩, status := ⟨0b00100100⟩, prog_counter := 0x8000,
    bus := bus0, stack_pointer := 0xFD }

/-- A 16-byte iNES image whose header byte 7 is `0x04`: bits 2-3 are nonzero
(iNES version 1 per the claim), bits 0-1 are zero. -/
def inesVersionHiBits : List Nat :=
  [0x4E, 0x45, 0x53, 0x1A, 0, 0, 0, 0x04, 0, 0, 0, 0, 0, 0, 0, 0]

/-- A 16-byte iNES image whose header byte 7 is `0x01`: bits 2-3 are zero,
bits 0-1 are nonzero. -/
def inesVersionLoBits : List Nat :=
  [0x4E, 0x45, 0x53, 0x1A, 0, 0, 0, 0x01, 0, 0, 0, 0, 0, 0, 0, 0]

/-- A 16-byte iNES image whose header byte 6 is `0x08` (bit 3 set: four-screen
per the iNES format; bits 0 and 2 clear). -/
def inesBit3 : List Nat :=
  [0x4E, 0x45, 0x53, 0x1A, 0, 0, 0x08, 0, 0, 0, 0, 0, 0, 0, 0, 0]

/-- An iNES image whose header byte 6 is `0x04` (bit 2 set: trainer present
per the iNES format), followed by a 512-byte trainer. -/
def inesBit2 : List Nat :=
  [0x4E, 0x45, 0x53, 0x1A, 0, 0, 0x04, 0, 0, 0, 0, 0, 0, 0, 0, 0] ++
    List.replicate 512 0

/-- A PPU whose address register sits at `0x3000`. -/
def ppu3000 : PPU := { ppu0 with address_register := ⟨0x30, 0, true⟩ }

/-- A PPU whose address register sits at `0x2000` (start of VRAM). -/
def ppu2000 : PPU := { ppu0 with address_register := ⟨0x20, 0, true⟩ }

/-- The 0/1 value of one button bit of a status byte (specification
vocabulary for the joypad claim). -/
def bitOf (s m : Nat) : Nat := if s &&& m = 0 then 0 else 1

/-- Joypad states reachable from `Joypad::new` through the public operations
`write`, `read`, `add` and `remove`. -/
inductive Joypad.Reachable : Joypad → Prop where
  | init : Joypad.Reachable Joypad.new
  | wrt (j : Joypad) (v : Nat) : Joypad.Reachable j → Joypad.Reachable (j.write v)
  | rd (j : Joypad) : Joypad.Reachable j → Joypad.Reachable (j.read).2
  | press (j : Joypad) (b : Nat) : Joypad.Reachable j → Joypad.Reachable (j.add b)
  | release (j : Joypad) (b : Nat) :
      Joypad.Reachable j → Joypad.Reachable (j.remove b)

/-- The joypad state after `k` consecutive reads. -/
def Joypad.readState (j : Joypad) : Nat → Joypad
  | 0 => j
  | Nat.succ k => ((j.readState k).read).2

/-- The value returned by the `(k+1)`-st consecutive read. -/
def Joypad.readVal (j : Joypad) (k : Nat) : Nat := ((j.readState k).read).1

/-- A reachable joypad: press A, then raise the strobe. -/
def jpw : Joypad := (Joypad.new.add Button.A).write 1

/-- A PPU with the NMI flag raised (scanline 0). -/
def ppu9 : PPU := { ppu0 with nmi := true }

/-- The same PPU parked on scanline 261, one tick before the frame wrap. -/
def ppu9w : PPU := { ppu9 with scanline := 261 }

/-- A bus whose PPU has the NMI flag raised. -/
def bus9 : Bus := { bus0 with ppu := ppu9 }

/-- A CPU observing the raised NMI flag. -/
def cpu9 : CPU := { cpu1 with bus := bus9 }

/-- The CPU state after servicing the NMI from `cpu9`. -/
def c9r : CPU :=
  match CPU.interrupt cpu9 NMI with
  | .ok c => c
  | .error _ => cpu9

/-- C4: on the tick that crosses into scanline 241 the code does set VBlank and
its `Sprite0Hit` flag in PPUSTATUS, and a subsequent PPUSTATUS read returns
that byte — but the byte is `0x90`, because src/src/flags.rs declares
`Sprite0Hit = 0b0001_0000` (bit 4, not bit 6) and
`SpriteOverflow = 0b0100_0000` (bit 6, not bit 5): bit 6 of the returned
status byte is 0, contradicting the claimed bit layout. -/
theorem C4_status_bits_diverge :
    (ppu240.tick 1).1.status_register = 0x90 ∧
    ((ppu240.tick 1).1.read_status_register).1 = 0x90 ∧
    Nat.testBit 0x90 7 = true ∧
    Nat.testBit 0x90 4 = true ∧
    Nat.testBit 0x90 6 = false ∧
    Nat.testBit 0x90 5 = false ∧
    PPUStatus.Sprite0Hit = 0x10 ∧
    PPUStatus.SpriteOverflow = 0x40 := by
  decide

/-- C5: the loader tests `data[7] & 3` (bits 0-1), not bits 2-3: an image
whose byte 7 has bits 2-3 nonzero (0x04) is accepted, while an image whose
byte 7 has bits 2-3 zero (0x01) is rejected with the unsupported-version
error — both directions of the claim fail on the code. -/
theorem C5_version_check_diverges :
    Cartridge.new inesVersionHiBits = .ok ⟨[], [], 0, Mirroring.Horizontal⟩ ∧
    (0x04 >>> 2) &&& 3 ≠ 0 ∧
    Cartridge.new inesVersionLoBits = .error LoadError.unsupportedVersion ∧
    (0x01 >>> 2) &&& 3 = 0 :=
  ⟨rfl, by decide, rfl, by decide⟩

/-- C6: the loader derives four-screen from `data[6] & 4` (bit 2, the trainer
flag), not bit 3: a header with bit 3 set yields `Horizontal`, while a header
with only bit 2 set yields `FourScreen` — contradicting the claimed bit
assignment. -/
theorem C6_mirroring_bit_diverges :
    Cartridge.new inesBit3 = .ok ⟨[], [], 0, Mirroring.Horizontal⟩ ∧
    Cartridge.new inesBit2 = .ok ⟨[], [], 0, Mirroring.FourScreen⟩ :=
  ⟨rfl, rfl⟩

/-- C1 counterexample: resetting a CPU whose status byte was `0xFF` leaves
P = 0, not `0b0010_0100`: `CPUStatus::reset` sets the status byte to 0, so
neither Interrupt-disable nor Break2 (bit 5) is set after reset. -/
theorem C1_reset_status_counterexample :
    ¬ (CPU.reset cpu0).map (fun c => c.status.value) = .ok 0b00100100 := by
  decide

/-- C1 amended: after `CPU::reset`, A = X = Y = 0, SP = `0xFD`, P = 0 (all
flag bits clear, including bit 5), and PC is the little-endian 16-bit word
read from `0xFFFC`/`0xFFFD`. -/
theorem C1_reset_amended (c c' : CPU) (h : CPU.reset c = .ok c') :
    c'.a.value = 0 ∧ c'.x.value = 0 ∧ c'.y.value = 0 ∧
    c'.stack_pointer = 0xFD ∧ c'.status.value = 0 ∧
    ∃ lo b1 hi b2, c.bus.read 0xFFFC = .ok (lo, b1) ∧
      Bus.read b1 0xFFFD = .ok (hi, b2) ∧
      c'.prog_counter = (hi <<< 8) ||| lo := by
  unfold CPU.reset Bus.read_u16 at h
  cases hlo : c.bus.read 0xFFFC with
  | error e => simp only [hlo] at h; exact Except.noConfusion h
  | ok lo =>
    simp only [hlo] at h
    have h1 : ((0xFFFC + 1) % 0x10000 : Nat) = 0xFFFD := by norm_num
    rw [h1] at h
    cases hhi : lo.2.read 0xFFFD with
    | error e => simp only [hhi] at h; exact Except.noConfusion h
    | ok hi =>
      simp only [hhi] at h
      injection h with h2
      subst h2
      exact ⟨rfl, rfl, rfl, rfl, rfl, lo.1, lo.2, hi.1, hi.2, rfl, hhi, rfl⟩

/-- C1 witness: the amended reset theorem evaluated on the concrete `cpu0`. -/
theorem C1_reset_witness :
    cpu0r.a.value = 0 ∧ cpu0r.x.value = 0 ∧ cpu0r.y.value = 0 ∧
    cpu0r.stack_pointer = 0xFD ∧ cpu0r.status.value = 0 ∧
    ∃ lo b1 hi b2, cpu0.bus.read 0xFFFC = .ok (lo, b1) ∧
      Bus.read b1 0xFFFD = .ok (hi, b2) ∧
      cpu0r.prog_counter = (hi <<< 8) ||| lo :=
  C1_reset_amended cpu0 cpu0r rfl

/-- C2: servicing an NMI with P = `0b0010_0100` pushes PC high (`0x80` at
`0x01FD`) then PC low (`0x00` at `0x01FC`), then pushes the status copy at
`0x01FB` — but the pushed byte is `0x04`, with Break2 (bit 5) cleared, not
set: both `flag_mask & 0b010000 == 1` and `flag_mask & 0b100000 == 1` are
false for `flag_mask = 0x20`.  Interrupt-disable is set, the bus is ticked by
2 cycles, and PC is loaded from `0xFFFA`/`0xFFFB` as claimed. -/
theorem C2_nmi_push_break2_cleared :
    ((CPU.interrupt cpu1 NMI).map fun c => c.bus.ram.val 0x1FD) = .ok 0x80 ∧
    ((CPU.interrupt cpu1 NMI).map fun c => c.bus.ram.val 0x1FC) = .ok 0x00 ∧
    ((CPU.interrupt cpu1 NMI).map fun c => c.bus.ram.val 0x1FB) = .ok 0x04 ∧
    Nat.testBit 0x04 5 = false ∧
    (0x04 : Nat) ≠ 0b00100100 ∧
    ((CPU.interrupt cpu1 NMI).map fun c => c.status.value) = .ok 0b00100100 ∧
    ((CPU.interrupt cpu1 NMI).map fun c => c.bus.cycles) = .ok 2 ∧
    ((CPU.interrupt cpu1 NMI).map fun c => c.stack_pointer) = .ok 0xFA ∧
    ((CPU.interrupt cpu1 NMI).map fun c => c.prog_counter) = .ok 0 := by
  decide

/-- C10: `Frame::set_pixel` writes exactly the three bytes at
`(y * 256 + x) * 3` when `index + 2` is inside the 184320-byte buffer and
leaves the frame unchanged otherwise; `x` is never checked against the row
width, so a write with `x ≥ 256` is the same write as one at
`(x - 256, y + 1)` — landing in the following row instead of being clipped. -/
theorem C10_set_pixel (fr : Frame) (x y : Nat) (color : Nat × Nat × Nat)
    (hlen : fr.data.length = 184320) :
    ((y * 256 + x) * 3 + 2 < 184320 →
      ∀ j : Nat, (fr.set_pixel x y color).data.get? j =
        if j = (y * 256 + x) * 3 then some color.1
        else if j = (y * 256 + x) * 3 + 1 then some color.2.1
        else if j = (y * 256 + x) * 3 + 2 then some color.2.2
        else fr.data.get? j) ∧
    (¬ (y * 256 + x) * 3 + 2 < 184320 → fr.set_pixel x y color = fr) ∧
    (256 ≤ x → fr.set_pixel x y color = fr.set_pixel (x - 256) (y + 1) color) ∧
    (fr.set_pixel x y color).data.length = 184320 := by
  refine ⟨?_, ?_, ?_, ?_⟩
  · intro hin j
    simp only [Frame.set_pixel, Frame.WIDTH, hlen]
    rw [if_pos hin]
    by_cases hj : j < 184320
    · rw [List.get?_set_of_lt _ _ (by simpa [hlen] using hj),
        List.get?_set_of_lt _ _ (by simpa [hlen] using hj),
        List.get?_set_of_lt _ _ (by simpa [hlen] using hj)]
      split_ifs <;> first | rfl | omega
    · have hL :
          (((fr.data.set ((y * 256 + x) * 3) color.1).set
            ((y * 256 + x) * 3 + 1) color.2.1).set
            ((y * 256 + x) * 3 + 2) color.2.2).get? j = none :=
        List.get?_eq_none.2 (by simp [hlen]; omega)
      have hR : fr.data.get? j = none := List.get?_eq_none.2 (by omega)
      rw [hL, if_neg (by omega), if_neg (by omega), if_neg (by omega), hR]
  · intro hout
    simp only [Frame.set_pixel, Frame.WIDTH, hlen]
    rw [if_neg hout]
  · intro hx
    have hidx : (y * 256 + x) * 3 = ((y + 1) * 256 + (x - 256)) * 3 := by omega
    simp only [Frame.set_pixel, Frame.WIDTH]
    rw [hidx]
  · simp only [Frame.set_pixel, Frame.WIDTH]
    split
    · simp [hlen]
    · exact hlen

/-- C10 witness: the set-pixel theorem evaluated at a fresh frame with
`x = 300 ≥ 256`: the write lands at `(44, 3)`. -/
theorem C10_set_pixel_witness :
    Frame.new.data.length = 184320 ∧
    Frame.new.set_pixel 300 2 (7, 8, 9) = Frame.new.set_pixel 44 3 (7, 8, 9) ∧
    (Frame.new.set_pixel 300 2 (7, 8, 9)).data.get? ((2 * 256 + 300) * 3) = some 7 :=
  have hlen : Frame.new.data.length = 184320 := by
    show (List.replicate (Frame.WIDTH * Frame.HEIGHT * 3) 0).length = 184320
    rw [List.length_replicate]
    rfl
  ⟨hlen,
   (C10_set_pixel Frame.new 300 2 (7, 8, 9) hlen).2.2.1 (by omega),
   by
     rw [(C10_set_pixel Frame.new 300 2 (7, 8, 9) hlen).1 (by omega)
       ((2 * 256 + 300) * 3)]
     simp⟩

/-- C8: for every PPU whose palette has its 32 entries, every byte `v` and
each of the four aliased pairs (`0x3F10`/`0x3F00`, `0x3F14`/`0x3F04`,
`0x3F18`/`0x3F08`, `0x3F1C`/`0x3F0C`), a PPUDATA write with the address
register at the mirror address followed by a PPUDATA read with the address
register at the base address returns `v`, and vice versa: both addresses
access the same palette cell, so the aliasing invariant cannot be violated at
runtime. -/
theorem C8_palette_aliasing (p : PPU) (v : Nat) (i : Fin 4) (b b' : Bool)
    (hpal : p.palette.size = 32) :
    ((PPU.write { p with address_register := ⟨0x3F, 0x10 + 4 * i.val, b⟩ } v).bind
      fun p1 => (PPU.read { p1 with address_register := ⟨0x3F, 4 * i.val, b'⟩ }).map
        Prod.fst) = .ok v ∧
    ((PPU.write { p with address_register := ⟨0x3F, 4 * i.val, b⟩ } v).bind
      fun p1 => (PPU.read { p1 with address_register := ⟨0x3F, 0x10 + 4 * i.val, b'⟩ }).map
        Prod.fst) = .ok v := by
  fin_cases i <;>
    constructor <;>
    · simp only [PPU.write, PPU.read, AddressRegister.get, ByteArr.set,
        ByteArr.get, hpal]
      norm_num [Except.map, Except.bind]

/-- C8 witness: the aliasing theorem evaluated at the fresh PPU, value `0x2A`
and the pair `0x3F10`/`0x3F00`. -/
theorem C8_palette_aliasing_witness :
    ((PPU.write { ppu0 with address_register := ⟨0x3F, 0x10, true⟩ } 0x2A).bind
      fun p1 => (PPU.read { p1 with address_register := ⟨0x3F, 0, true⟩ }).map
        Prod.fst) = .ok 0x2A :=
  (C8_palette_aliasing ppu0 0x2A 0 true true rfl).1

/-- C3 counterexample: a PPUDATA read at address `0x3000` — inside the
`0x0000–0x3EFF` range of the claim — does not return the buffered byte: the
`0x3000..=0x3EFF` arm of `PPU::read` panics. -/
theorem C3_read_3000_counterexample :
    PPU.read ppu3000 = .error "Reading from 0x3000 - 0x3EFF is not expected" := by
  rfl

/-- Nametable indices of horizontal/vertical mirroring fit the 2 KiB PPU RAM:
table 0 (`0x2000..=0x23FF`). -/
theorem ntMirrorBound0 :
    ∀ i < 1024, nametableMirror Mirroring.Horizontal (0x2000 + i) < 2048 ∧
      nametableMirror Mirroring.Vertical (0x2000 + i) < 2048 := by
  decide

/-- Nametable indices of horizontal/vertical mirroring fit the 2 KiB PPU RAM:
table 1 (`0x2400..=0x27FF`). -/
theorem ntMirrorBound1 :
    ∀ i < 1024, nametableMirror Mirroring.Horizontal (0x2400 + i) < 2048 ∧
      nametableMirror Mirroring.Vertical (0x2400 + i) < 2048 := by
  decide

/-- Nametable indices of horizontal/vertical mirroring fit the 2 KiB PPU RAM:
table 2 (`0x2800..=0x2BFF`). -/
theorem ntMirrorBound2 :
    ∀ i < 1024, nametableMirror Mirroring.Horizontal (0x2800 + i) < 2048 ∧
      nametableMirror Mirroring.Vertical (0x2800 + i) < 2048 := by
  decide

/-- Nametable indices of horizontal/vertical mirroring fit the 2 KiB PPU RAM:
table 3 (`0x2C00..=0x2FFF`). -/
theorem ntMirrorBound3 :
    ∀ i < 1024, nametableMirror Mirroring.Horizontal (0x2C00 + i) < 2048 ∧
      nametableMirror Mirroring.Vertical (0x2C00 + i) < 2048 := by
  decide

/-- The in-bounds property for an arbitrary address in `0x2000..=0x2FFF`. -/
theorem nametableMirror_lt (m : Mirroring)
    (hm : m = Mirroring.Horizontal ∨ m = Mirroring.Vertical) (addr : Nat)
    (h1 : 0x2000 ≤ addr) (h2 : addr ≤ 0x2FFF) : nametableMirror m addr < 2048 := by
  have key : nametableMirror Mirroring.Horizontal addr < 2048 ∧
      nametableMirror Mirroring.Vertical addr < 2048 := by
    by_cases c0 : addr < 0x2400
    · have h := ntMirrorBound0 (addr - 0x2000) (by omega)
      have he : 0x2000 + (addr - 0x2000) = addr := by omega
      rwa [he] at h
    · by_cases c1 : addr < 0x2800
      · have h := ntMirrorBound1 (addr - 0x2400) (by omega)
        have he : 0x2400 + (addr - 0x2400) = addr := by omega
        rwa [he] at h
      · by_cases c2 : addr < 0x2C00
        · have h := ntMirrorBound2 (addr - 0x2800) (by omega)
          have he : 0x2800 + (addr - 0x2800) = addr := by omega
          rwa [he] at h
        · have h := ntMirrorBound3 (addr - 0x2C00) (by omega)
          have he : 0x2C00 + (addr - 0x2C00) = addr := by omega
          rwa [he] at h
  rcases hm with h' | h' <;> rw [h']
  · exact key.1
  · exact key.2

/-- C3 amended: a PPUDATA read auto-increments the address register by the
CTRL stride (1 or 32); for the current address in `0x0000–0x1FFF` (within the
CHR bounds) or `0x2000–0x2FFF` (horizontal/vertical mirroring) it returns the
previously buffered byte and refills the buffer from the current address; for
`0x3F00–0x3F1F` (outside the four `0x3F1x` aliases, which C8 covers) it
returns the palette value directly, without touching the buffer.  Reads from
`0x3000–0x3EFF` panic (see the counterexample), and palette reads at
`0x3F20–0x3FFF` index the 32-byte palette out of bounds. -/
theorem C3_read_amended (p : PPU) (hram : p.ram.size = 2048)
    (hpal : p.palette.size = 32)
    (hmir : p.mirroring = Mirroring.Horizontal ∨ p.mirroring = Mirroring.Vertical) :
    (ctrlVramIncrement p.controller_register = 1 ∨
      ctrlVramIncrement p.controller_register = 32) ∧
    (p.address_register.get ≤ 0x1FFF → p.address_register.get < p.chr.size →
      p.read = .ok (p.internal_buffer,
        { p with
            address_register :=
              p.address_register.add (ctrlVramIncrement p.controller_register)
            internal_buffer := p.chr.val p.address_register.get })) ∧
    (0x2000 ≤ p.address_register.get → p.address_register.get ≤ 0x2FFF →
      p.read = .ok (p.internal_buffer,
        { p with
            address_register :=
              p.address_register.add (ctrlVramIncrement p.controller_register)
            internal_buffer :=
              p.ram.val (nametableMirror p.mirroring p.address_register.get) })) ∧
    (0x3F00 ≤ p.address_register.get → p.address_register.get ≤ 0x3F1F →
      ¬ (p.address_register.get = 0x3F10 ∨ p.address_register.get = 0x3F14 ∨
          p.address_register.get = 0x3F18 ∨ p.address_register.get = 0x3F1C) →
      p.read = .ok (p.palette.val (p.address_register.get - 0x3F00),
        { p with
            address_register :=
              p.address_register.add (ctrlVramIncrement p.controller_register) })) := by
  refine ⟨?_, ?_, ?_, ?_⟩
  · unfold ctrlVramIncrement
    split
    · right; rfl
    · left; rfl
  · intro h1 h2
    simp only [PPU.read, ByteArr.get]
    rw [if_pos h1, if_pos h2]
    rfl
  · intro h1 h2
    have hmb := nametableMirror_lt p.mirroring hmir p.address_register.get h1 h2
    simp only [PPU.read, ByteArr.get, PPU.mirror]
    rw [if_neg (by omega), if_pos h2, if_pos (by rw [hram]; exact hmb)]
    rfl
  · intro h1 h2 hnot
    simp only [PPU.read, ByteArr.get]
    rw [if_neg (by omega), if_neg (by omega), if_neg (by omega), if_neg hnot,
      if_pos (by omega), if_pos (by rw [hpal]; omega)]
    rfl

/-- C3 witness: the amended read theorem evaluated at the fresh PPU with the
address register at `0x2000`. -/
theorem C3_read_amended_witness :
    PPU.read ppu2000 = .ok (ppu2000.internal_buffer,
      { ppu2000 with
          address_register :=
            ppu2000.address_register.add (ctrlVramIncrement ppu2000.controller_register)
          internal_buffer :=
            ppu2000.ram.val (nametableMirror ppu2000.mirroring
              ppu2000.address_register.get) }) :=
  (C3_read_amended ppu2000 rfl rfl (Or.inl rfl)).2.2.1 (by decide) (by decide)

/-- Extracting bit `k`: `(s & (1 << k)) >> k` is the 0/1 bit value. -/
theorem and_one_shiftLeft_shiftRight (s k : Nat) :
    (s &&& (1 <<< k)) >>> k = bitOf s (1 <<< k) := by
  rw [Nat.one_shiftLeft, Nat.and_two_pow, Nat.shiftRight_eq_div_pow,
    Nat.mul_div_cancel _ (Nat.two_pow_pos k), bitOf, Nat.and_two_pow]
  cases s.testBit k <;> simp [Nat.two_pow_pos k, Nat.pos_iff_ne_zero]

/-- In every reachable joypad state, a high strobe pins the index at 0. -/
theorem Joypad.reachable_strobe_index {j : Joypad} (hr : j.Reachable) :
    j.strobe = true → j.index = 0 := by
  induction hr with
  | init => intro h; simp [Joypad.new] at h
  | wrt j v hj ih =>
    intro h
    simp only [Joypad.write] at h ⊢
    rw [if_pos h]
  | rd j hj ih =>
    by_cases h7 : j.index > 7
    · simp only [Joypad.read, if_pos h7]; exact ih
    · simp only [Joypad.read, if_neg h7]
      by_cases hc : j.strobe = false ∧ j.index ≤ 7
      · rw [if_pos hc]
        intro h
        exact absurd h (by simp [hc.1])
      · rw [if_neg hc]; exact ih
  | press j b hj ih => simp only [Joypad.add]; exact ih
  | release j b hj ih => simp only [Joypad.remove]; exact ih

/-- While the strobe is high (and the index pinned at 0), reads do not change
the joypad state at all. -/
theorem Joypad.readState_strobe_high {j : Joypad} (hs : j.strobe = true)
    (h0 : j.index = 0) : ∀ k, j.readState k = j := by
  intro k
  induction k with
  | zero => rfl
  | succ k ih =>
    show ((j.readState k).read).2 = j
    rw [ih]
    simp only [Joypad.read]
    rw [if_neg (by omega)]
    rw [if_neg (by simp [hs])]

/-- With the strobe low, successive reads walk the index up to 8 and park
there. -/
theorem Joypad.readState_walk (s : Nat) :
    ∀ k, Joypad.readState ⟨false, 0, s⟩ k = ⟨false, min k 8, s⟩ := by
  intro k
  induction k with
  | zero => rfl
  | succ k ih =>
    show ((Joypad.readState _ k).read).2 = _
    rw [ih]
    by_cases h8 : min k 8 > 7
    · simp only [Joypad.read, if_pos h8]
      have hm : min k 8 = min (k + 1) 8 := by omega
      rw [hm]
    · simp only [Joypad.read, if_neg h8]
      rw [if_pos (by exact ⟨by trivial, by omega⟩)]
      have hm : min k 8 + 1 = min (k + 1) 8 := by omega
      rw [hm]

/-- With the strobe low and the index starting at 0, the `(k+1)`-st read
returns bit `k` for `k < 8` and 1 afterwards. -/
theorem Joypad.readVal_walk (s k : Nat) :
    Joypad.readVal ⟨false, 0, s⟩ k = if k < 8 then bitOf s (1 <<< k) else 1 := by
  unfold Joypad.readVal
  rw [Joypad.readState_walk]
  by_cases hk : k < 8
  · rw [if_pos hk]
    have hmin : min k 8 = k := by omega
    simp only [Joypad.read, hmin]
    rw [if_neg (by omega)]
    rw [if_pos (by exact ⟨by trivial, by omega⟩)]
    exact and_one_shiftLeft_shiftRight s k
  · rw [if_neg hk]
    have hmin : min k 8 = 8 := by omega
    simp only [Joypad.read, hmin]
    rfl

/-- C7: in every reachable joypad state with the strobe high, every read
returns the A-button bit and leaves the read index at 0; after the strobe
falls (`write 0`), the next eight reads return the bits for A, B, SELECT,
START, UP, DOWN, LEFT, RIGHT in that order, and every read from the ninth
onward returns 1. -/
theorem C7_joypad_read (j : Joypad) (hr : j.Reachable) (hs : j.strobe = true) :
    (∀ k, j.readVal k = bitOf j.status Button.A ∧ (j.readState k).index = 0) ∧
    ((j.write 0).readVal 0 = bitOf j.status Button.A ∧
      (j.write 0).readVal 1 = bitOf j.status Button.B ∧
      (j.write 0).readVal 2 = bitOf j.status Button.SELECT ∧
      (j.write 0).readVal 3 = bitOf j.status Button.START ∧
      (j.write 0).readVal 4 = bitOf j.status Button.UP ∧
      (j.write 0).readVal 5 = bitOf j.status Button.DOWN ∧
      (j.write 0).readVal 6 = bitOf j.status Button.LEFT ∧
      (j.write 0).readVal 7 = bitOf j.status Button.RIGHT) ∧
    (∀ k, 8 ≤ k → (j.write 0).readVal k = 1) := by
  have h0 := Joypad.reachable_strobe_index hr hs
  have hw : j.write 0 = ⟨false, 0, j.status⟩ := by
    simp only [Joypad.write]
    norm_num
    exact h0
  refine ⟨?_, ?_, ?_⟩
  · intro k
    constructor
    · unfold Joypad.readVal
      rw [Joypad.readState_strobe_high hs h0]
      simp only [Joypad.read]
      rw [if_neg (by omega), if_neg (by simp [hs])]
      show (j.status &&& (1 <<< j.index)) >>> j.index = bitOf j.status Button.A
      rw [h0]
      exact and_one_shiftLeft_shiftRight j.status 0
    · rw [Joypad.readState_strobe_high hs h0]; exact h0
  · rw [hw]
    refine ⟨?_, ?_, ?_, ?_, ?_, ?_, ?_, ?_⟩ <;> (rw [Joypad.readVal_walk]; rfl)
  · intro k hk
    rw [hw, Joypad.readVal_walk, if_neg (by omega)]

/-- C7 witness: the joypad theorem evaluated on the concrete reachable state
`jpw` (A pressed, strobe high). -/
theorem C7_joypad_read_witness :
    jpw.readVal 0 = bitOf jpw.status Button.A ∧
    (jpw.write 0).readVal 2 = bitOf jpw.status Button.SELECT ∧
    (jpw.write 0).readVal 9 = 1 :=
  ⟨((C7_joypad_read jpw
      (Joypad.Reachable.wrt _ 1 (Joypad.Reachable.press _ Button.A
        Joypad.Reachable.init)) rfl).1 0).1,
   (C7_joypad_read jpw
      (Joypad.Reachable.wrt _ 1 (Joypad.Reachable.press _ Button.A
        Joypad.Reachable.init)) rfl).2.1.2.2.1,
   (C7_joypad_read jpw
      (Joypad.Reachable.wrt _ 1 (Joypad.Reachable.press _ Button.A
        Joypad.Reachable.init)) rfl).2.2 9 (by omega)⟩

/-- A stack push with a byte-sized stack pointer lands in CPU RAM: it
succeeds and touches neither the PPU, the ROM, the status nor the program
counter; the new stack pointer is again byte-sized. -/
theorem CPU.stack_push_ok (c : CPU) (v : Nat) (hsp : c.stack_pointer ≤ 255)
    (hram : c.bus.ram.size = 2048) :
    ∃ c₂, c.stack_push v = .ok c₂ ∧ c₂.bus.ppu = c.bus.ppu ∧
      c₂.bus.ram.size = 2048 ∧ c₂.stack_pointer ≤ 255 ∧
      c₂.status = c.status ∧ c₂.prog_counter = c.prog_counter := by
  have hand : (0x100 + c.stack_pointer) &&& 0x7FF ≤ 0x7FF := Nat.and_le_right
  have hidx : (0x100 + c.stack_pointer) &&& 0x7FF < c.bus.ram.size := by
    rw [hram]; omega
  refine ⟨{ c with
      bus := { c.bus with
        ram := ⟨c.bus.ram.size,
          fun j => if j = (0x100 + c.stack_pointer) &&& 0x7FF then v
            else c.bus.ram.val j⟩ }
      stack_pointer := (c.stack_pointer + 255) % 256 }, ?_, rfl, hram,
    by show (c.stack_pointer + 255) % 256 ≤ 255; omega, rfl, rfl⟩
  unfold CPU.stack_push Bus.write Bus.writePrim ByteArr.set
  rw [if_neg (by omega), if_pos (by omega), if_pos hidx]
  rfl

/-- `PPU::tick` never clears a raised NMI flag while the scanline is below
261 (the wrap that clears it needs `scanline + 1 ≥ 262`). -/
theorem PPU.tick_nmi_preserved (p : PPU) (n : Nat) (hn : p.nmi = true)
    (hs : p.scanline < 261) : ((p.tick n).1).nmi = true := by
  simp only [PPU.tick]
  by_cases hc : p.cycles + n ≥ 341
  · rw [if_pos hc, if_neg (show ¬ p.scanline + 1 ≥ 262 by omega)]
    by_cases h241 : p.scanline + 1 = 241
    · rw [if_pos h241]
      cases hct : ctrlVblank p.controller_register <;> simp [hct, hn]
    · rw [if_neg h241]
      exact hn
  · rw [if_neg hc]
    exact hn

/-- A bus read of a `0x8000..=0xFFFF` address only consults the PRG ROM and
returns the bus unchanged. -/
theorem Bus.read_hi_rom (b : Bus) (addr : Nat) (h8 : 0x8000 ≤ addr)
    (hf : addr ≤ 0xFFFF) :
    Bus.read b addr = (b.read_from_rom addr).map fun v => (v, b) := by
  unfold Bus.read Bus.readPrim
  repeat rw [if_neg (by omega)]
  rw [if_pos (by omega)]

/-- A successful 16-bit read of the NMI vector leaves the bus unchanged. -/
theorem Bus.read_u16_FFFA (b : Bus) (v : Nat) (b' : Bus)
    (h : Bus.read_u16 b 0xFFFA = .ok (v, b')) : b' = b := by
  unfold Bus.read_u16 at h
  rw [Bus.read_hi_rom b 0xFFFA (by norm_num) (by norm_num)] at h
  cases hr : b.read_from_rom 0xFFFA with
  | error e => simp only [hr, Except.map] at h; exact Except.noConfusion h
  | ok lo =>
    simp only [hr, Except.map] at h
    have h1 : ((0xFFFA + 1) % 0x10000 : Nat) = 0xFFFB := by norm_num
    rw [h1, Bus.read_hi_rom b 0xFFFB (by norm_num) (by norm_num)] at h
    cases hr2 : b.read_from_rom 0xFFFB with
    | error e => simp only [hr2, Except.map] at h; exact Except.noConfusion h
    | ok hi =>
      simp only [hr2, Except.map, Except.ok.injEq, Prod.mk.injEq] at h
      exact h.2.symm

/-- C9: `Bus::nmi_status` returns the PPU NMI flag unmodified; the
interpreter-loop head services the interrupt exactly when that flag is set;
servicing the interrupt never clears the flag as long as the 2-cycle bus tick
does not wrap the scanline past 261 (so the loop re-services the NMI before
every subsequent instruction); and the tick that does wrap the scanline past
261 clears the flag. -/
theorem C9_nmi_persistence :
    (∀ b : Bus, b.nmi_status = b.ppu.nmi) ∧
    (∀ c : CPU, c.bus.ppu.nmi = true → CPU.interpretNmiCheck c = c.interrupt NMI) ∧
    (∀ c c' : CPU, c.stack_pointer ≤ 255 → c.bus.ram.size = 2048 →
      c.bus.ppu.nmi = true → c.bus.ppu.scanline < 261 →
      CPU.interrupt c NMI = .ok c' → c'.bus.ppu.nmi = true) ∧
    (∀ (p : PPU) (n : Nat), 261 ≤ p.scanline → 341 ≤ p.cycles + n →
      ((p.tick n).1).nmi = false) := by
  refine ⟨fun b => rfl, ?_, ?_, ?_⟩
  · intro c h
    unfold CPU.interpretNmiCheck Bus.nmi_status
    rw [if_pos h]
  · intro c c' hsp hram hnmi hscan h
    unfold CPU.interrupt CPU.stack_push_u16 at h
    obtain ⟨c2, hp1, hppu1, hram1, hsp1, hst1, hpc1⟩ :=
      CPU.stack_push_ok c ((c.prog_counter >>> 8) % 256) hsp hram
    simp only [hp1] at h
    obtain ⟨c3, hp2, hppu2, hram2, hsp2, hst2, hpc2⟩ :=
      CPU.stack_push_ok c2 (c.prog_counter % 256) hsp1 hram1
    simp only [hp2] at h
    obtain ⟨c4, hp3, hppu3, hram3, hsp3, hst3, hpc3⟩ :=
      CPU.stack_push_ok c3
        (((c3.status.set Status.Break (NMI.flag_mask &&& 0b010000 == 1)).set
          Status.Break2 (NMI.flag_mask &&& 0b100000 == 1)).value) hsp2 hram2
    simp only [hp3] at h
    have hppu : c4.bus.ppu = c.bus.ppu := by rw [hppu3, hppu2, hppu1]
    split at h
    · exact Except.noConfusion h
    · rename_i vb heq
      injection h with h2
      subst h2
      show vb.2.ppu.nmi = true
      have hb := Bus.read_u16_FFFA _ vb.1 vb.2 heq
      rw [hb]
      unfold Bus.tick
      show (((c4.bus.ppu.tick (NMI.cycles * 3 % 256))).1).nmi = true
      exact PPU.tick_nmi_preserved _ _ (by rw [hppu]; exact hnmi)
        (by rw [hppu]; exact hscan)
  · intro p n hs hc
    simp only [PPU.tick]
    rw [if_pos hc, if_pos (show p.scanline + 1 ≥ 262 by omega)]

/-- C9 witness: the persistence theorem evaluated on the concrete `cpu9`: the
bus reports the flag, servicing the interrupt leaves it raised, and the
wrapping tick clears it. -/
theorem C9_nmi_persistence_witness :
    bus9.nmi_status = true ∧ c9r.bus.ppu.nmi = true ∧
    ((ppu9w.tick 341).1).nmi = false :=
  ⟨(C9_nmi_persistence.1 bus9).trans rfl,
   C9_nmi_persistence.2.2.1 cpu9 c9r (by decide) rfl rfl (by decide) rfl,
   C9_nmi_persistence.2.2.2 ppu9w 341 (by decide) (by decide)⟩
